import Mathlib

/-!
# Verification of the RunMyPod provisioning orchestrator

Shallow embedding of the provisioning core of the repository:

* `ModelSpec` / `ProvisioningConfig` (`provisioner/models.py`),
* the script synthesizer `generate_setup_script`
  (`provisioner/services/runpod_client.py`),
* the readiness poll loop `wait_for_pod`,
* the remote session routine `execute_setup`.

Python strings become Lean `String`; Python `Optional[str]` becomes
`Option String`; Python truthiness of an optional string (`None` and `""`
are falsy) is made explicit.  The unbounded poll loop of `wait_for_pod` is
modelled over a finite list of polled pod states (one entry per call of
`runpod.get_pod`); the SSH side effects of `execute_setup` (connection
successes, the exit status of the heredoc write, the streamed stdout of the
script run) are supplied by an explicit environment record, and the routine
additionally reports how many connection attempts it made.  Timing calls
(`time.sleep`) have no observable effect on the yielded lines and are
elided.
-/

namespace RunMyPod

/-- `leadsList p l` : the character list `p` occurs at the head of `l`
(list version of Python `str.startswith`). -/
def leadsList : List Char → List Char → Bool
  | [], _ => true
  | _ :: _, [] => false
  | c :: p, d :: l => c == d && leadsList p l

/-- `subList p l` : the character list `p` occurs contiguously somewhere in
`l` (list version of Python `in` on strings). -/
def subList : List Char → List Char → Bool
  | p, [] => p.isEmpty
  | p, c :: t => leadsList p (c :: t) || subList p t

/-- String wrapper of `leadsList` : `s` starts with `p`. -/
def strLeads (p s : String) : Bool := leadsList p.data s.data

/-- String wrapper of `subList` : `p` occurs in `s` (Python `p in s`). -/
def strSub (p s : String) : Bool := subList p.data s.data

/-- `ModelType` enumeration (`provisioner/models.py`). -/
inductive ModelType where
  | checkpoint
  | lora
  | vae
  | embedding
  | controlnet
deriving DecidableEq, Repr

/-- A model artifact to install (`ModelSpec` in `provisioner/models.py`). -/
structure ModelSpec where
  name : String
  url : String
  type : ModelType := .checkpoint
  subfolder : Option String := none
deriving DecidableEq, Repr

/-- The per-type default directory table of `ModelSpec.install_path`
(`mapping.get(self.type, "checkpoints")`); every member of the `ModelType`
enumeration is a key of the table, so the `"checkpoints"` fallback of
`.get` is only reachable for the listed `checkpoint` entry itself. -/
def defaultDir : ModelType → String
  | .checkpoint => "checkpoints"
  | .lora => "loras"
  | .vae => "vae"
  | .embedding => "embeddings"
  | .controlnet => "controlnet"

/-- Python truthiness of an `Optional[str]` : `None` and `""` are falsy. -/
def optStrTruthy : Option String → Bool
  | none => false
  | some s => s ≠ ""

/-- `ModelSpec.install_path` : `subfolder` when truthy, else the per-type
default directory. -/
def ModelSpec.install_path (m : ModelSpec) : String :=
  if optStrTruthy m.subfolder then m.subfolder.getD "" else defaultDir m.type

/-- `ProvisioningConfig` (`provisioner/models.py`), with the defaults of the
pydantic fields. -/
structure ProvisioningConfig where
  api_key : String
  hf_token : Option String := none
  gpu_type_id : String := "NVIDIA GeForce RTX 3090"
  cloud_type : String := "COMMUNITY"
  volume_size_gb : Int := 40
  container_disk_size_gb : Int := 40
  template_id : String := "runpod/pytorch:2.0.1-py3.10-cuda11.8.0-devel-ubuntu22.04"
  models : List ModelSpec := []
  comfyui_repo : String := "https://github.com/comfyanonymous/ComfyUI"
  comfyui_manager_repo : String := "https://github.com/ltdrdata/ComfyUI-Manager.git"
deriving DecidableEq, Repr

/-! ## Script synthesizer (`RunPodService.generate_setup_script`) -/

/-- The `wget_args` string computed inside the model loop of
`generate_setup_script` : the authorization header when
`"huggingface.co" in model.url and config.hf_token`, else `""`. -/
def wget_args (c : ProvisioningConfig) (m : ModelSpec) : String :=
  if strSub "huggingface.co" m.url && optStrTruthy c.hf_token then
    "--header='Authorization: Bearer " ++ c.hf_token.getD "" ++ "'"
  else ""

/-- The `echo` line announcing a model download. -/
def echoLine (m : ModelSpec) : String :=
  "echo 'Downloading " ++ m.name ++ "...'"

/-- The `wget` download line of a model:
`wget {wget_args} -O '{path}/{model.name}' '{model.url}'` with
`path = f"models/{model.install_path}"`. -/
def wgetLine (c : ProvisioningConfig) (m : ModelSpec) : String :=
  "wget " ++ wget_args c m ++ " -O 'models/" ++ m.install_path ++ "/" ++
    m.name ++ "' '" ++ m.url ++ "'"

/-- The lines the model loop of `generate_setup_script` appends for one
model : two lines when `model.url.startswith("http")`, nothing otherwise. -/
def modelLines (c : ProvisioningConfig) (m : ModelSpec) : List String :=
  if strLeads "http" m.url then [echoLine m, wgetLine c m] else []

/-- The fixed leading lines of the synthesized script (the initial `script`
list literal of `generate_setup_script`). -/
def headerLines (c : ProvisioningConfig) : List String :=
  [ "#!/bin/bash",
    "set -e",
    "echo 'Starting ComfyUI Provisioning...'",
    "cd /workspace",
    "",
    "# Install ComfyUI",
    "if [ ! -d 'ComfyUI' ]; then",
    "  git clone " ++ c.comfyui_repo,
    "fi",
    "cd ComfyUI",
    "pip install -r requirements.txt",
    "",
    "# Install Manager",
    "cd custom_nodes",
    "if [ ! -d 'ComfyUI-Manager' ]; then",
    "  git clone " ++ c.comfyui_manager_repo,
    "fi",
    "cd ..",
    "",
    "# Download Models" ]

/-- The full line list of the synthesized script : header, the model loop,
and the final completion echo. -/
def scriptLines (c : ProvisioningConfig) : List String :=
  headerLines c ++ c.models.flatMap (modelLines c) ++ ["echo 'Provisioning Complete!'"]

/-- `generate_setup_script` : the script text, `"\n".join(script)`. -/
def generate_setup_script (c : ProvisioningConfig) : String :=
  "\n".intercalate (scriptLines c)

/-! ## Readiness poll loop (`RunPodService.wait_for_pod`) -/

/-- One port mapping of `pod['runtime']['ports']`. -/
structure PortMapping where
  privatePort : Nat
  publicPort : Nat
  ip : String
deriving DecidableEq, Repr

/-- A pod as returned by `runpod.get_pod` : the desired status string and
the runtime port list; `runtime = none` models an absent or port-less
`runtime` dict. -/
structure Pod where
  desiredStatus : String
  runtime : Option (List PortMapping) := none
deriving DecidableEq, Repr

/-- Truthiness of `pod.get('runtime', {}).get('ports')` : an absent runtime
or an empty port list is falsy. -/
def portsTruthy : Option (List PortMapping) → Bool
  | none => false
  | some l => !l.isEmpty

/-- The return condition of the poll loop:
`pod['desiredStatus'] == 'RUNNING' and pod.get('runtime', {}).get('ports')`. -/
def podReady (p : Pod) : Bool :=
  p.desiredStatus == "RUNNING" && portsTruthy p.runtime

/-- `wait_for_pod`, driven by the finite list of pod states the successive
`runpod.get_pod` calls return: `some (.ok p)` models returning pod `p`,
`some (.error _)` models the `RuntimeError` raised on `'EXITED'`, and
`none` models exhausting the list while still polling (the Python loop
would keep sleeping and polling). -/
def wait_for_pod : List Pod → Option (Except String Pod)
  | [] => none
  | p :: ps =>
    if podReady p then some (.ok p)
    else if p.desiredStatus == "EXITED" then some (.error "Pod exited unexpectedly")
    else wait_for_pod ps

/-! ## Remote session routine (`RunPodService.execute_setup`) -/

/-- The SSH-side effects `execute_setup` observes: whether the `i`-th
`client.connect` call (0-based) succeeds, the message of the exception the
failing connect raises, the exit status of the heredoc script write, and
the stdout lines streamed by the script run. -/
structure SSHEnv where
  connectOk : Nat → Bool
  connectErr : String
  writeExitStatus : Int
  runOutput : List String

/-- The SSH endpoint extraction of `execute_setup` : the first port mapping
with `privatePort == 22` gives `(publicPort, ip)`; `none` when the runtime
or such a mapping is absent. -/
def sshInfo (pod : Pod) : Option (Nat × String) :=
  match pod.runtime with
  | none => none
  | some ports =>
    match ports.find? (fun q => q.privatePort == 22) with
    | none => none
    | some q => some (q.publicPort, q.ip)

/-- The `if not ssh_port or not public_ip` guard: the endpoint is usable
only when present with a non-zero port and a non-empty IP (Python
truthiness of `ssh_port` and `public_ip`). -/
def sshUsable (pod : Pod) : Option (Nat × String) :=
  match sshInfo pod with
  | none => none
  | some (port, ip) => if port == 0 || ip == "" then none else some (port, ip)

/-- The connection retry loop of `execute_setup`, with `remaining` attempts
left and `i` the index of the next attempt.  Returns the number of
`client.connect` calls made, the yielded lines, and whether a connection
was established.  On a failure that is not the last attempt the loop
sleeps and yields `"Waiting for SSH..."`; on the last failure it yields the
failure line and gives up. -/
def connectLoop (env : SSHEnv) (i : Nat) : Nat → Nat × List String × Bool
  | 0 => (0, [], false)
  | remaining + 1 =>
    if env.connectOk i then (1, [], true)
    else if remaining == 0 then
      (1, ["Failed to connect via SSH: " ++ env.connectErr], false)
    else
      let r := connectLoop env (i + 1) remaining
      (r.1 + 1, "Waiting for SSH..." :: r.2.1, r.2.2)

/-- The observable outcome of `execute_setup` : how many `client.connect`
calls were made, the script content sent to the remote heredoc write
(`none` when execution never reached the write), and the yielded lines. -/
structure SetupResult where
  attempts : Nat
  written : Option String
  lines : List String
deriving DecidableEq, Repr

/-- `execute_setup` : mirrors the Python generator — endpoint extraction,
the `retries = 10` connect loop, the heredoc write of
`generate_setup_script` with its exit-status check, and the line-by-line
streamed (and `strip`ped) stdout of the script run. -/
def execute_setup (pod : Pod) (c : ProvisioningConfig) (env : SSHEnv) :
    SetupResult :=
  match sshUsable pod with
  | none => ⟨0, none, ["Error: Could not find SSH port."]⟩
  | some _ =>
    let r := connectLoop env 0 10
    if !r.2.2 then ⟨r.1, none, r.2.1⟩
    else if env.writeExitStatus != 0 then
      ⟨r.1, some (generate_setup_script c),
        r.2.1 ++ ["Failed to write setup script."]⟩
    else
      ⟨r.1, some (generate_setup_script c),
        r.2.1 ++ env.runOutput.map (fun line => line.trim)⟩

/-! ## Spec-side definitions

The next two definitions follow the wording of the specification (not the
code); they exist to compare the spec's conditions with the conditions the
code actually tests. -/

/-- `afterSub p l` : the remainder of `l` after the first occurrence of
`p`, `none` when `p` does not occur. -/
def afterSub (p : List Char) : List Char → Option (List Char)
  | [] => if p.isEmpty then some [] else none
  | c :: t => if leadsList p (c :: t) then some ((c :: t).drop p.length) else afterSub p t

/-- Spec-side reading of "the model URL's host": the text between the
scheme separator `://` and the following `/` (empty when the URL has no
scheme separator). -/
def specUrlHost (u : String) : String :=
  match afterSub "://".data u.data with
  | none => ""
  | some rest => String.mk (rest.takeWhile (fun ch => ch != '/'))

/-- Spec-side reading of "the URL uses an HTTP(S) scheme": the URL starts
with `http://` or `https://`. -/
def specIsHttpScheme (u : String) : Bool :=
  strLeads "http://" u || strLeads "https://" u

/-- A line of the synthesized script is a download line when it starts with
`wget ` (every line the model loop emits with `wget` does, and no other
line of the script does). -/
def isDownloadLine (s : String) : Bool := strLeads "wget " s

/-- A download line carries the authorization header exactly when it starts
with `wget --header='Authorization: Bearer`. -/
def hasAuthHeader (s : String) : Bool :=
  strLeads "wget --header='Authorization: Bearer" s

/-! ## String prefix lemmas -/

theorem leadsList_self_append (p r : List Char) : leadsList p (p ++ r) = true := by
  induction p with
  | nil => rfl
  | cons a p ih => simp [leadsList, ih]

theorem leadsList_append_false (p : List Char) :
    ∀ (l₀ r : List Char), leadsList (p.take l₀.length) l₀ = false →
      leadsList p (l₀ ++ r) = false := by
  induction p with
  | nil => intro l₀ r h; simp [leadsList] at h
  | cons a p ih =>
    intro l₀ r h
    cases l₀ with
    | nil => simp [leadsList] at h
    | cons b l₀ =>
      simp only [List.length_cons, List.take_succ_cons, leadsList,
        Bool.and_eq_false_iff] at h
      cases h with
      | inl hab => simp [leadsList, hab]
      | inr htail => simp [leadsList, ih l₀ r htail]

/-! ## Classifying the lines of the synthesized script -/

theorem isDownloadLine_wgetLine (c : ProvisioningConfig) (m : ModelSpec) :
    isDownloadLine (wgetLine c m) = true := by
  have h : (wgetLine c m).data =
      "wget ".data ++ (wget_args c m ++ " -O 'models/" ++ m.install_path ++
        "/" ++ m.name ++ "' '" ++ m.url ++ "'").data := by
    simp [wgetLine, String.data_append, List.append_assoc]
  simp only [isDownloadLine, strLeads, h]
  exact leadsList_self_append _ _

theorem isDownloadLine_echoLine (m : ModelSpec) :
    isDownloadLine (echoLine m) = false := by
  have h : (echoLine m).data =
      "echo 'Downloading ".data ++ (m.name ++ "...'").data := by
    simp [echoLine, String.data_append, List.append_assoc]
  simp only [isDownloadLine, strLeads, h]
  apply leadsList_append_false
  decide

theorem isDownloadLine_git (s : String) :
    isDownloadLine ("  git clone " ++ s) = false := by
  simp only [isDownloadLine, strLeads, String.data_append]
  apply leadsList_append_false
  decide

theorem filter_headerLines (c : ProvisioningConfig) :
    (headerLines c).filter isDownloadLine = [] := by
  rw [List.filter_eq_nil_iff]
  intro a ha
  simp only [headerLines, List.mem_cons, List.not_mem_nil, or_false] at ha
  rcases ha with rfl|rfl|rfl|rfl|rfl|rfl|rfl|rfl|rfl|rfl|rfl|rfl|rfl|rfl|rfl|rfl|rfl|rfl|rfl|rfl <;>
    first
      | decide
      | simp [isDownloadLine_git]

theorem filter_modelLoop (c : ProvisioningConfig) :
    ∀ ms : List ModelSpec,
      (ms.flatMap (modelLines c)).filter isDownloadLine =
        (ms.filter (fun m => strLeads "http" m.url)).map (wgetLine c) := by
  intro ms
  induction ms with
  | nil => rfl
  | cons m ms ih =>
    rw [List.flatMap_cons, List.filter_append, ih, List.filter_cons]
    by_cases hv : strLeads "http" m.url = true
    · simp [modelLines, hv, isDownloadLine_echoLine, isDownloadLine_wgetLine]
    · rw [Bool.not_eq_true] at hv
      simp [modelLines, hv]

/-- The download lines of the synthesized script, in order: exactly one
`wget` line per model whose URL starts with `http`, following the order of
`config.models`. -/
theorem filter_scriptLines (c : ProvisioningConfig) :
    (scriptLines c).filter isDownloadLine =
      (c.models.filter (fun m => strLeads "http" m.url)).map (wgetLine c) := by
  simp only [scriptLines, List.filter_append, filter_headerLines,
    filter_modelLoop, List.nil_append]
  have hfooter : List.filter isDownloadLine ["echo 'Provisioning Complete!'"] = [] := by
    decide
  rw [hfooter, List.append_nil]

/-- The download line of a model carries the authorization header exactly
when the code's condition holds: `"huggingface.co" in model.url` and a
truthy `config.hf_token`. -/
theorem hasAuthHeader_wgetLine (c : ProvisioningConfig) (m : ModelSpec) :
    hasAuthHeader (wgetLine c m) =
      (strSub "huggingface.co" m.url && optStrTruthy c.hf_token) := by
  by_cases hcond : (strSub "huggingface.co" m.url && optStrTruthy c.hf_token) = true
  · rw [hcond]
    have hargs : wget_args c m =
        "--header='Authorization: Bearer " ++ c.hf_token.getD "" ++ "'" := by
      simp [wget_args, hcond]
    simp only [hasAuthHeader, strLeads, wgetLine, hargs, String.data_append,
      List.append_assoc]
    rw [← List.append_assoc "wget ".data "--header='Authorization: Bearer ".data]
    have hsplit : "wget ".data ++ "--header='Authorization: Bearer ".data =
        "wget --header='Authorization: Bearer".data ++ [' '] := by decide
    rw [hsplit, List.append_assoc]
    exact leadsList_self_append _ _
  · rw [Bool.not_eq_true] at hcond
    rw [hcond]
    have hargs : wget_args c m = "" := by simp [wget_args, hcond]
    have hw : ("wget " : String) ++ "" ++ " -O 'models/" = "wget  -O 'models/" := by
      decide
    simp only [hasAuthHeader, strLeads, wgetLine, hargs]
    rw [hw]
    simp only [String.data_append, List.append_assoc]
    apply leadsList_append_false
    decide

/-! ## Claim theorems -/

/-- C3, counterexample: a `ModelSpec` whose `subfolder` is set to the empty
string does not get `install_path = subfolder` — Python truthiness sends
the empty string to the per-type default, here `"loras"`.  This refutes
"install_path equals subfolder whenever subfolder is set, regardless of
type". -/
theorem install_path_set_subfolder_counterexample :
    (ModelSpec.mk "a.safetensors" "https://x/a" .lora (some "")).subfolder = some "" ∧
    (ModelSpec.mk "a.safetensors" "https://x/a" .lora (some "")).install_path = "loras" ∧
    ("loras" : String) ≠ "" := by
  refine ⟨rfl, ?_, by decide⟩
  decide

/-- C3 (amended): `install_path` equals `subfolder` whenever `subfolder` is
set to a non-empty string, regardless of type; when `subfolder` is `none`
it equals the fixed per-type default directory (checkpoint→"checkpoints",
lora→"loras", vae→"vae", embedding→"embeddings",
controlnet→"controlnet"). -/
theorem install_path_subfolder_cases (m : ModelSpec) :
    (∀ s, m.subfolder = some s → s ≠ "" → m.install_path = s) ∧
    (m.subfolder = none → m.install_path = defaultDir m.type) ∧
    (defaultDir .checkpoint = "checkpoints" ∧ defaultDir .lora = "loras" ∧
      defaultDir .vae = "vae" ∧ defaultDir .embedding = "embeddings" ∧
      defaultDir .controlnet = "controlnet") := by
  refine ⟨?_, ?_, by decide, by decide, by decide, by decide, by decide⟩
  · intro s hs hne
    simp [ModelSpec.install_path, hs, optStrTruthy, hne]
  · intro h
    simp [ModelSpec.install_path, h, optStrTruthy]

/-- Witness for C3 (amended) at a concrete `ModelSpec` of each branch. -/
theorem install_path_subfolder_cases_witness :
    (ModelSpec.mk "n" "u" .vae (some "sub")).install_path = "sub" ∧
    (ModelSpec.mk "n" "u" .vae none).install_path = defaultDir .vae :=
  ⟨(install_path_subfolder_cases (ModelSpec.mk "n" "u" .vae (some "sub"))).1
      "sub" rfl (by decide),
    (install_path_subfolder_cases (ModelSpec.mk "n" "u" .vae none)).2.1 rfl⟩

/-- C10: a `ModelSpec` whose `subfolder` is the empty string gets the
per-type default directory, and `install_path` is non-empty whenever
`subfolder` is `None` or empty. -/
theorem install_path_empty_subfolder_default (m : ModelSpec) :
    (m.subfolder = some "" → m.install_path = defaultDir m.type) ∧
    ((m.subfolder = none ∨ m.subfolder = some "") → m.install_path ≠ "") := by
  have hdef : defaultDir m.type ≠ "" := by cases m.type <;> decide
  constructor
  · intro h
    simp [ModelSpec.install_path, h, optStrTruthy]
  · intro h
    rcases h with h | h <;> simp [ModelSpec.install_path, h, optStrTruthy, hdef]

/-- Witness for C10 at a concrete `ModelSpec` with an empty subfolder. -/
theorem install_path_empty_subfolder_default_witness :
    (ModelSpec.mk "n" "u" .lora (some "")).install_path = defaultDir .lora ∧
    (ModelSpec.mk "n" "u" .lora (some "")).install_path ≠ "" :=
  ⟨(install_path_empty_subfolder_default (ModelSpec.mk "n" "u" .lora (some ""))).1 rfl,
    (install_path_empty_subfolder_default (ModelSpec.mk "n" "u" .lora (some ""))).2
      (Or.inr rfl)⟩

/-- C9: script synthesis is deterministic — two invocations of
`generate_setup_script` on equal configurations produce identical text
(the synthesizer is a pure function of the configuration alone). -/
theorem generate_setup_script_deterministic (c₁ c₂ : ProvisioningConfig)
    (h : c₁ = c₂) : generate_setup_script c₁ = generate_setup_script c₂ := by
  rw [h]

/-- Witness for C9 at a concrete configuration. -/
theorem generate_setup_script_deterministic_witness :
    generate_setup_script { api_key := "k" } =
      generate_setup_script { api_key := "k" } :=
  generate_setup_script_deterministic { api_key := "k" } { api_key := "k" } rfl

/-- C4: for every sequence of polled pod states, `wait_for_pod` raises the
`RuntimeError` as soon as the polled desired status is `EXITED` — the
result is fixed by the head of the poll sequence alone, so no further poll
iteration happens — and any pod it returns has desired status `RUNNING`
and populated port mappings. -/
theorem wait_for_pod_exited_and_ready :
    (∀ (p : Pod) (ps : List Pod), p.desiredStatus = "EXITED" →
      wait_for_pod (p :: ps) = some (.error "Pod exited unexpectedly")) ∧
    (∀ (polls : List Pod) (p : Pod), wait_for_pod polls = some (.ok p) →
      p.desiredStatus = "RUNNING" ∧ portsTruthy p.runtime = true) := by
  constructor
  · intro p ps h
    have hnr : podReady p = false := by simp [podReady, h]
    simp [wait_for_pod, hnr, h]
  · intro polls
    induction polls with
    | nil => intro p h; simp [wait_for_pod] at h
    | cons q ps ih =>
      intro p h
      cases hr : podReady q with
      | true =>
        simp only [wait_for_pod, hr, if_true] at h
        have hqp : q = p := by
          injection h with h1
          injection h1
        subst hqp
        simp only [podReady, Bool.and_eq_true, beq_iff_eq] at hr
        exact hr
      | false =>
        by_cases he : (q.desiredStatus == "EXITED") = true
        · simp [wait_for_pod, hr, he] at h
        · rw [Bool.not_eq_true] at he
          simp only [wait_for_pod, hr, he, Bool.false_eq_true, if_false] at h
          exact ih p h

/-- Witness for C4: an `EXITED` pod at the head of the poll sequence makes
`wait_for_pod` raise at once, whatever states would have been polled
later. -/
theorem wait_for_pod_exited_and_ready_witness :
    wait_for_pod [Pod.mk "EXITED" none, Pod.mk "RUNNING" (some [PortMapping.mk 22 22022 "1.2.3.4"])] =
      some (.error "Pod exited unexpectedly") :=
  wait_for_pod_exited_and_ready.1 (Pod.mk "EXITED" none)
    [Pod.mk "RUNNING" (some [PortMapping.mk 22 22022 "1.2.3.4"])] rfl

/-- The connect loop under universally failing connection attempts:
`remaining` attempts are all made, one `Waiting for SSH...` line follows
every failed attempt before the last, and the last failure yields the
single failure line. -/
theorem connectLoop_all_fail (env : SSHEnv) (hfail : ∀ i, env.connectOk i = false) :
    ∀ (remaining i : Nat), 0 < remaining →
      connectLoop env i remaining =
        (remaining, List.replicate (remaining - 1) "Waiting for SSH..." ++
          ["Failed to connect via SSH: " ++ env.connectErr], false) := by
  intro remaining
  induction remaining with
  | zero => intro i h; exact absurd h (by decide)
  | succ r ih =>
    intro i _
    cases r with
    | zero => simp [connectLoop, hfail i]
    | succ r' =>
      have hr := ih (i + 1) (Nat.succ_pos r')
      rw [connectLoop, hfail i, hr]
      simp [List.replicate_succ]

/-- C5: when every connection attempt fails and the pod does expose a
usable SSH endpoint, `execute_setup` makes exactly 10 connection attempts,
yields one `Waiting for SSH...` line after each of the first 9 failures
and exactly one failure line after the last, terminates there, and never
writes (hence never executes) the setup script. -/
theorem execute_setup_all_connects_fail (pod : Pod) (c : ProvisioningConfig)
    (env : SSHEnv) (hssh : sshUsable pod ≠ none)
    (hfail : ∀ i, env.connectOk i = false) :
    execute_setup pod c env =
      ⟨10, none, List.replicate 9 "Waiting for SSH..." ++
        ["Failed to connect via SSH: " ++ env.connectErr]⟩ := by
  obtain ⟨x, hx⟩ := Option.ne_none_iff_exists'.mp hssh
  have hloop := connectLoop_all_fail env hfail 10 0 (by decide)
  simp [execute_setup, hx, hloop]

/-- Witness for C5 at a concrete pod, configuration and failing SSH
environment. -/
theorem execute_setup_all_connects_fail_witness :
    execute_setup (Pod.mk "RUNNING" (some [PortMapping.mk 22 22022 "1.2.3.4"]))
      { api_key := "k" } (SSHEnv.mk (fun _ => false) "timed out" 0 []) =
      ⟨10, none, List.replicate 9 "Waiting for SSH..." ++
        ["Failed to connect via SSH: " ++ "timed out"]⟩ :=
  execute_setup_all_connects_fail
    (Pod.mk "RUNNING" (some [PortMapping.mk 22 22022 "1.2.3.4"]))
    { api_key := "k" } (SSHEnv.mk (fun _ => false) "timed out" 0 [])
    (by decide) (fun _ => rfl)

/-- C6: a pod whose port mappings hold no entry for private port 22 makes
`execute_setup` yield exactly the one failure line and terminate, with no
connection attempt and no script written. -/
theorem execute_setup_no_ssh_port (pod : Pod) (c : ProvisioningConfig)
    (env : SSHEnv) (h : ∀ q ∈ pod.runtime.getD [], q.privatePort ≠ 22) :
    execute_setup pod c env = ⟨0, none, ["Error: Could not find SSH port."]⟩ := by
  have hinfo : sshInfo pod = none := by
    cases hrt : pod.runtime with
    | none => simp [sshInfo, hrt]
    | some ports =>
      rw [hrt] at h
      have hfind : ports.find? (fun q => q.privatePort == 22) = none := by
        rw [List.find?_eq_none]
        intro q hq
        simpa using h q (by simpa using hq)
      simp [sshInfo, hrt, hfind]
  have husable : sshUsable pod = none := by simp [sshUsable, hinfo]
  simp [execute_setup, husable]

/-- Witness for C6 at a concrete pod exposing only the HTTP port. -/
theorem execute_setup_no_ssh_port_witness :
    execute_setup (Pod.mk "RUNNING" (some [PortMapping.mk 8188 80 "1.2.3.4"]))
      { api_key := "k" } (SSHEnv.mk (fun _ => true) "" 0 []) =
      ⟨0, none, ["Error: Could not find SSH port."]⟩ :=
  execute_setup_no_ssh_port
    (Pod.mk "RUNNING" (some [PortMapping.mk 8188 80 "1.2.3.4"]))
    { api_key := "k" } (SSHEnv.mk (fun _ => true) "" 0 []) (by decide)

/-- C1, counterexample: the code tests `"huggingface.co" in model.url`
over the whole URL string, not over the URL's host.  For a model hosted at
`evil.example` whose path merely contains `huggingface.co`, and a
configured `hf_token`, the script carries the authorization header even
though the host does not contain the Hugging Face domain — refuting the
claimed "if and only if the model URL's host contains the Hugging Face
domain". -/
theorem authHeader_not_host_based :
    hasAuthHeader (wgetLine
      { api_key := "k", hf_token := some "tok",
        models := [ModelSpec.mk "evil.bin"
          "https://evil.example/huggingface.co/evil.bin" .checkpoint none] }
      (ModelSpec.mk "evil.bin"
        "https://evil.example/huggingface.co/evil.bin" .checkpoint none)) = true ∧
    wgetLine
      { api_key := "k", hf_token := some "tok",
        models := [ModelSpec.mk "evil.bin"
          "https://evil.example/huggingface.co/evil.bin" .checkpoint none] }
      (ModelSpec.mk "evil.bin"
        "https://evil.example/huggingface.co/evil.bin" .checkpoint none) ∈
      scriptLines
        { api_key := "k", hf_token := some "tok",
          models := [ModelSpec.mk "evil.bin"
            "https://evil.example/huggingface.co/evil.bin" .checkpoint none] } ∧
    specUrlHost "https://evil.example/huggingface.co/evil.bin" = "evil.example" ∧
    strSub "huggingface.co"
      (specUrlHost "https://evil.example/huggingface.co/evil.bin") = false ∧
    optStrTruthy (some "tok") = true := by
  decide

/-- C1 (amended): the download line of a model in the configuration's model
list carries the authorization header if and only if the model URL — taken
as a whole string, not just its host — contains `huggingface.co` and a
non-empty `hf_token` is configured; when either condition fails the line
carries no authorization header. -/
theorem authHeader_iff_url_contains (c : ProvisioningConfig) (m : ModelSpec)
    (hmem : m ∈ c.models) (hvalid : strLeads "http" m.url = true) :
    wgetLine c m ∈ scriptLines c ∧
    (hasAuthHeader (wgetLine c m) = true ↔
      (strSub "huggingface.co" m.url = true ∧ optStrTruthy c.hf_token = true)) := by
  constructor
  · have h1 : wgetLine c m ∈ (scriptLines c).filter isDownloadLine := by
      rw [filter_scriptLines]
      exact List.mem_map_of_mem _ (List.mem_filter.mpr ⟨hmem, hvalid⟩)
    exact List.mem_of_mem_filter h1
  · rw [hasAuthHeader_wgetLine]
    simp [Bool.and_eq_true]

/-- Witness for C1 (amended) at the Hugging Face single-model
configuration. -/
theorem authHeader_iff_url_contains_witness :
    wgetLine
      { api_key := "k", hf_token := some "tok",
        models := [ModelSpec.mk "a.safetensors"
          "https://huggingface.co/x/a.safetensors" .checkpoint none] }
      (ModelSpec.mk "a.safetensors"
        "https://huggingface.co/x/a.safetensors" .checkpoint none) ∈
      scriptLines
        { api_key := "k", hf_token := some "tok",
          models := [ModelSpec.mk "a.safetensors"
            "https://huggingface.co/x/a.safetensors" .checkpoint none] } ∧
    (hasAuthHeader (wgetLine
        { api_key := "k", hf_token := some "tok",
          models := [ModelSpec.mk "a.safetensors"
            "https://huggingface.co/x/a.safetensors" .checkpoint none] }
        (ModelSpec.mk "a.safetensors"
          "https://huggingface.co/x/a.safetensors" .checkpoint none)) = true ↔
      (strSub "huggingface.co" "https://huggingface.co/x/a.safetensors" = true ∧
        optStrTruthy (some "tok") = true)) :=
  authHeader_iff_url_contains
    { api_key := "k", hf_token := some "tok",
      models := [ModelSpec.mk "a.safetensors"
        "https://huggingface.co/x/a.safetensors" .checkpoint none] }
    (ModelSpec.mk "a.safetensors"
      "https://huggingface.co/x/a.safetensors" .checkpoint none)
    (by decide) (by decide)

/-- C2, counterexample: URL validity is tested with
`model.url.startswith("http")`, not with an HTTP(S)-scheme check.  A model
whose URL uses the scheme `httpderp` still gets a download line in the
synthesized script, refuting "a download line is emitted only for models
whose URL uses an HTTP(S) scheme". -/
theorem download_line_not_scheme_based :
    (scriptLines
      { api_key := "k",
        models := [ModelSpec.mk "b.bin"
          "httpderp://example.com/b.bin" .checkpoint none] }).filter isDownloadLine =
      [wgetLine
        { api_key := "k",
          models := [ModelSpec.mk "b.bin"
            "httpderp://example.com/b.bin" .checkpoint none] }
        (ModelSpec.mk "b.bin" "httpderp://example.com/b.bin" .checkpoint none)] ∧
    specIsHttpScheme "httpderp://example.com/b.bin" = false := by
  decide

/-- C2 (amended): the model loop emits download lines for a model exactly
when its URL starts with the literal string `http` (which admits non-HTTP(S)
schemes such as `httpderp`); the script's download lines are exactly those
of the models passing that test. -/
theorem download_line_iff_starts_http (c : ProvisioningConfig) (m : ModelSpec) :
    (modelLines c m = [] ↔ strLeads "http" m.url = false) ∧
    (scriptLines c).filter isDownloadLine =
      (c.models.filter (fun m' => strLeads "http" m'.url)).map (wgetLine c) := by
  refine ⟨?_, filter_scriptLines c⟩
  cases hv : strLeads "http" m.url
  · simp [modelLines, hv]
  · simp [modelLines, hv]

/-- C7: the download lines of every synthesized script are exactly one
`wget` step per model whose URL starts with `http`, in the insertion order
of `config.models` (duplicates each producing a separate step), each
targeting `models/<install_path>/<name>`; the single-model Hugging Face
scenario with `hf_token="tok"` yields the expected authorized download
line, and a duplicated model yields two download steps. -/
theorem script_download_order_and_scenario :
    (∀ c : ProvisioningConfig,
      (scriptLines c).filter isDownloadLine =
        (c.models.filter (fun m => strLeads "http" m.url)).map (wgetLine c)) ∧
    (∀ (c : ProvisioningConfig) (m : ModelSpec),
      wgetLine c m =
        "wget " ++ wget_args c m ++ " -O 'models/" ++ m.install_path ++ "/" ++
          m.name ++ "' '" ++ m.url ++ "'") ∧
    (scriptLines
      { api_key := "k", hf_token := some "tok",
        models := [ModelSpec.mk "a.safetensors"
          "https://huggingface.co/x/a.safetensors" .checkpoint none] }).filter
        isDownloadLine =
      ["wget --header='Authorization: Bearer tok' -O 'models/checkpoints/a.safetensors' 'https://huggingface.co/x/a.safetensors'"] ∧
    (scriptLines
      { api_key := "k",
        models := [ModelSpec.mk "d.bin" "http://h/d.bin" .checkpoint none,
          ModelSpec.mk "d.bin" "http://h/d.bin" .checkpoint none] }).filter
        isDownloadLine =
      ["wget  -O 'models/checkpoints/d.bin' 'http://h/d.bin'",
        "wget  -O 'models/checkpoints/d.bin' 'http://h/d.bin'"] :=
  ⟨filter_scriptLines, fun _ _ => rfl, by decide, by decide⟩

/-- C8: every synthesized script starts with the shebang followed by
`set -e`, contains the clone-if-absent lines for the app and manager
repositories and the dependency-install line, and ends with the completion
echo; a configuration with `models=[]` yields zero download lines. -/
theorem script_shape (c : ProvisioningConfig) :
    (scriptLines c).take 2 = ["#!/bin/bash", "set -e"] ∧
    "  git clone " ++ c.comfyui_repo ∈ scriptLines c ∧
    "pip install -r requirements.txt" ∈ scriptLines c ∧
    "  git clone " ++ c.comfyui_manager_repo ∈ scriptLines c ∧
    (scriptLines c).getLast? = some "echo 'Provisioning Complete!'" ∧
    (c.models = [] → (scriptLines c).filter isDownloadLine = []) := by
  refine ⟨rfl, ?_, ?_, ?_, ?_, ?_⟩
  · simp [scriptLines, headerLines]
  · simp [scriptLines, headerLines]
  · simp [scriptLines, headerLines]
  · rw [scriptLines]
    exact List.getLast?_concat _
  · intro h
    rw [filter_scriptLines, h]
    rfl

/-- Witness for C8: the empty-model configuration has zero download
lines. -/
theorem script_shape_witness :
    (scriptLines { api_key := "k" }).filter isDownloadLine = [] :=
  (script_shape { api_key := "k" }).2.2.2.2.2 rfl

end RunMyPod
